import Mathlib

/-!
Verification of the Clarify AI study-assistant core logic.

The definitions below are a shallow embedding of the repository source:
the quiz grading rules and quiz-completion result (TestSection), the
ten-dimension metrics derivation (MetricsSection), the generation
orchestrator dispatch of the top-level App component, and the
session-list maintenance (createNewSession / deleteSession).
JavaScript numbers are modelled as Int where they hold counts and as
Rat where fractional accuracy values are compared against breakpoints.
-/

/-! ### Quiz data model (from types.ts) -/

/-- Multiple-choice question: `MultipleChoiceQuestion` in types.ts. -/
structure MultipleChoiceQuestion where
  id : String
  question : String
  options : List String
  correctAnswer : String
  deriving DecidableEq, Repr

/-- Fill-in-the-blank question: `FillBlankQuestion` in types.ts. -/
structure FillBlankQuestion where
  id : String
  question : String
  sentence : String
  correctAnswer : String
  deriving DecidableEq, Repr

/-- One left/right pair of a matching question. -/
structure MatchPair where
  left : String
  right : String
  deriving DecidableEq, Repr

/-- Matching question: `MatchQuestion` in types.ts. -/
structure MatchQuestion where
  id : String
  question : String
  pairs : List MatchPair
  deriving DecidableEq, Repr

/-- Short-answer question: `ShortAnswerQuestion` in types.ts. -/
structure ShortAnswerQuestion where
  id : String
  question : String
  sampleAnswer : String
  deriving DecidableEq, Repr

/-- Record `QuizData` in types.ts; the `match` field is renamed `matchQ`
because `match` is a Lean keyword. -/
structure QuizData where
  topic : String
  choose : List MultipleChoiceQuestion
  fillBlank : List FillBlankQuestion
  matchQ : List MatchQuestion
  answer : List ShortAnswerQuestion
  deriving DecidableEq, Repr

/-- Union `QuestionType` in types.ts (`choose | fill-blank | match | answer`). -/
inductive QuestionType
  | choose
  | fillBlank
  | matchQ
  | answer
  deriving DecidableEq, Repr

/-! ### Grading (handleCheckAnswer in TestSection) -/

/-- JavaScript `toLowerCase()`: lowercase every character. -/
def jsToLowerCase (s : String) : String :=
  String.mk (s.data.map Char.toLower)

/-- JavaScript `trim()`: drop leading and trailing whitespace. -/
def jsTrim (s : String) : String :=
  String.mk
    (List.reverse (List.dropWhile Char.isWhitespace
      (List.reverse (List.dropWhile Char.isWhitespace s.data))))

/-- Fill-blank comparison from handleCheckAnswer:
`textInput.toLowerCase().trim() === q.correctAnswer.toLowerCase().trim()`. -/
def gradeFillBlank (textInput correctAnswer : String) : Bool :=
  jsTrim (jsToLowerCase textInput) == jsTrim (jsToLowerCase correctAnswer)

/-- Match comparison from handleCheckAnswer:
`q.pairs.every(p => matchSelections[p.left] === p.right)`; a selection
record is modelled as a partial map, a missing key grades as wrong. -/
def gradeMatch (pairs : List MatchPair) (matchSelections : String → Option String) : Bool :=
  pairs.all fun p => matchSelections p.left == some p.right

/-- The grading dispatch of handleCheckAnswer in TestSection.
`isCorrect` starts false; each branch looks up the current question of
the active type and applies the type-specific rule; the `answer` branch
is unconditionally true. -/
def checkAnswer (quizData : QuizData) (activeType : QuestionType)
    (currentQuestionIndex : Nat) (selectedOption textInput : String)
    (matchSelections : String → Option String) : Bool :=
  match activeType with
  | QuestionType.choose =>
      match quizData.choose[currentQuestionIndex]? with
      | some q => selectedOption == q.correctAnswer
      | none => false
  | QuestionType.fillBlank =>
      match quizData.fillBlank[currentQuestionIndex]? with
      | some q => gradeFillBlank textInput q.correctAnswer
      | none => false
  | QuestionType.matchQ =>
      match quizData.matchQ[currentQuestionIndex]? with
      | some q => gradeMatch q.pairs matchSelections
      | none => false
  | QuestionType.answer => true

/-! ### Mistakes, quiz results and the metrics derivation (MetricsSection) -/

/-- Record `MistakeItem` in types.ts. -/
structure MistakeItem where
  id : String
  questionId : String
  questionText : String
  userAnswer : String
  correctAnswer : String
  category : String
  note : String
  topic : String
  timestamp : Int
  deriving DecidableEq, Repr

/-- Record `QuizResult` in types.ts. -/
structure QuizResult where
  id : String
  topic : String
  difficulty : String
  score : Int
  totalQuestions : Int
  timestamp : Int
  deriving DecidableEq, Repr

/-- Record `Metric` of MetricsSection. -/
structure Metric where
  id : Nat
  label : String
  score : Int
  required : Int
  description : String
  category : String
  deriving DecidableEq, Repr, Inhabited

/-- Aggregate accuracy over the whole history:
`totalCorrect / totalQuestions`, guarded to 0 when no questions. -/
def aggregateAccuracy (quizHistory : List QuizResult) : ℚ :=
  let totalCorrect := (quizHistory.map QuizResult.score).sum
  let totalQuestions := (quizHistory.map QuizResult.totalQuestions).sum
  if 0 < totalQuestions then (totalCorrect : ℚ) / (totalQuestions : ℚ) else 0

/-- Accuracy breakpoints applied to Direct Recall and Procedural
Mastery in the metrics useMemo. -/
def accuracyBucket (accuracy : ℚ) : Int :=
  if 9/10 < accuracy then 5
  else if 3/4 < accuracy then 4
  else if 1/2 < accuracy then 3
  else 2

/-- Hard passes: results with difficulty Hard and per-result accuracy
strictly above 0.6. -/
def hardPassCount (quizHistory : List QuizResult) : Nat :=
  (quizHistory.filter fun q =>
    q.difficulty == "Hard" && decide ((3/5 : ℚ) < (q.score : ℚ) / (q.totalQuestions : ℚ))).length

/-- Mistakes categorized as Concept Error. -/
def conceptErrorCount (mistakes : List MistakeItem) : Nat :=
  (mistakes.filter fun m => m.category == "Concept Error").length

/-- Mistakes categorized as Calculation. -/
def calcErrorCount (mistakes : List MistakeItem) : Nat :=
  (mistakes.filter fun m => m.category == "Calculation").length

/-- Mistakes with a note longer than 10 characters. -/
def detailedNoteCount (mistakes : List MistakeItem) : Nat :=
  (mistakes.filter fun m => 10 < m.note.length).length

/-- The metrics useMemo of MetricsSection: the ten-dimension profile
derived from the mistake list and the quiz-result history. Mutable
score variables of the source become one conditional per final value,
nested exactly as the source nests its blocks. -/
def deriveMetrics (mistakes : List MistakeItem) (quizHistory : List QuizResult) : List Metric :=
  let totalQuizzes := quizHistory.length
  let accuracy := aggregateAccuracy quizHistory
  let directRecall : Int := if 0 < totalQuizzes then accuracyBucket accuracy else 3
  let procedural0 : Int := if 0 < totalQuizzes then accuracyBucket accuracy else 3
  let hardPasses := hardPassCount quizHistory
  let application : Int := if 0 < totalQuizzes then (if 0 < hardPasses then 2 + 2 else 2) else 2
  let critical : Int := if 0 < totalQuizzes then (if 0 < hardPasses then 2 + 1 else 2) else 2
  let recent := quizHistory.take 3
  let recentAccuracy : ℚ :=
    ((recent.map QuizResult.score).sum : ℚ) / ((recent.map QuizResult.totalQuestions).sum : ℚ)
  let speed : Int := if 0 < totalQuizzes then (if accuracy < recentAccuracy then 4 + 1 else 4) else 4
  let conceptErrors := conceptErrorCount mistakes
  let concept0 : Int := if 2 < conceptErrors then max 1 (3 - 1) else 3
  let concept : Int := if conceptErrors = 0 ∧ 0 < totalQuizzes then min 5 (concept0 + 1) else concept0
  let calcErrors := calcErrorCount mistakes
  let procedural : Int := if 2 < calcErrors then max 1 (procedural0 - 1) else procedural0
  let detailedNotes := detailedNoteCount mistakes
  let errorCorrection : Int := if 2 < detailedNotes then min 5 (3 + 1) else 3
  [ { id := 1, label := "Direct Recall", score := directRecall, required := 4,
      description := "Ability to retrieve specific facts without cues.", category := "Core" },
    { id := 2, label := "Conceptual Understanding", score := concept, required := 4,
      description := "Grasping the underlying principles and relationships.", category := "Core" },
    { id := 3, label := "Procedural Mastery", score := procedural, required := 4,
      description := "Executing steps or methods correctly.", category := "Core" },
    { id := 4, label := "Application", score := min 5 application, required := 4,
      description := "Using knowledge in new, unfamiliar situations.", category := "Core" },
    { id := 5, label := "Creative Thinking", score := 3, required := 3,
      description := "Generating novel ideas or divergent solutions.", category := "Advanced" },
    { id := 6, label := "Critical Thinking", score := min 5 critical, required := 3,
      description := "Evaluating arguments and identifying biases.", category := "Advanced" },
    { id := 7, label := "Synthesis", score := 2, required := 3,
      description := "Integrating separate elements into a coherent whole.", category := "Advanced" },
    { id := 8, label := "Time Efficiency", score := min 5 speed, required := 3,
      description := "Speed plus accuracy in execution.", category := "Performance" },
    { id := 9, label := "Error Correction", score := errorCorrection, required := 4,
      description := "Ability to self-identify and fix mistakes.", category := "Core" },
    { id := 10, label := "Depth of Explanation", score := 4, required := 3,
      description := "Richness and detail in articulated answers.", category := "Performance" } ]

/-- Score of the i-th derived metric (0-based position in the list the
useMemo returns). -/
def metricScore (mistakes : List MistakeItem) (quizHistory : List QuizResult) (i : Nat) : Int :=
  ((deriveMetrics mistakes quizHistory).getD i default).score

/-! ### Generation orchestrator (handleSendMessage in App) -/

/-- Enum `AppTab` in types.ts. -/
inductive AppTab
  | explanation
  | visuals
  | simulation
  | verify
  deriving DecidableEq, Repr

/-- Union `MainView` in types.ts; `paste-link` becomes `pasteLink`. -/
inductive MainView
  | learning
  | test
  | teach
  | metrics
  | projects
  | history
  | settings
  | pasteLink
  deriving DecidableEq, Repr

/-- A web source returned by verification. -/
structure GroundingSource where
  uri : String
  title : String
  deriving DecidableEq, Repr

/-- The verification slot payload. -/
structure VerificationData where
  explanation : String
  sources : List GroundingSource
  deriving DecidableEq, Repr

/-- Outcome of one settled promise, as reported by
`Promise.allSettled`. -/
inductive Settled (α : Type)
  | fulfilled (value : α)
  | rejected
  deriving DecidableEq, Repr

/-- The four artifact slots of the App component state. -/
structure Artifacts where
  explanation : String
  visualBase64 : Option String
  simulationCode : Option String
  verificationData : Option VerificationData
  deriving DecidableEq, Repr

/-- The settlement loop after `Promise.allSettled` in handleSendMessage:
each fulfilled outcome stores its value into its own slot; a rejected
outcome leaves its slot untouched and touches nothing else. -/
def applyFanOut (st : Artifacts) (exp vis sim : Settled String)
    (ver : Settled VerificationData) : Artifacts :=
  let st1 := match exp with
    | Settled.fulfilled v => { st with explanation := v }
    | Settled.rejected => st
  let st2 := match vis with
    | Settled.fulfilled v => { st1 with visualBase64 := some v }
    | Settled.rejected => st1
  let st3 := match sim with
    | Settled.fulfilled v => { st2 with simulationCode := some v }
    | Settled.rejected => st2
  match ver with
  | Settled.fulfilled v => { st3 with verificationData := some v }
  | Settled.rejected => st3

/-- The part of the App component state handleSendMessage dispatches on
and updates. -/
structure LearnState where
  activeView : MainView
  activeSubTab : AppTab
  artifacts : Artifacts
  deriving DecidableEq, Repr

/-- Which AI operation handleSendMessage dispatches for a submitted
text: edit the current visual, edit the current simulation, or fan out
the full four-way generation. -/
inductive Dispatch
  | editVisualCall (current : String) (instruction : String)
  | editSimulationCall (current : String) (instruction : String)
  | generateAll (text : String)
  deriving DecidableEq, Repr

/-- The branch condition chain of handleSendMessage (App.tsx lines
117-137), reported as the dispatched operation. -/
def classifyMessage (st : LearnState) (text : String) : Dispatch :=
  if st.activeView = MainView.learning ∧ st.activeSubTab = AppTab.visuals
      ∧ st.artifacts.visualBase64.isSome then
    Dispatch.editVisualCall (st.artifacts.visualBase64.getD "") text
  else if st.activeView = MainView.learning ∧ st.activeSubTab = AppTab.simulation
      ∧ st.artifacts.simulationCode.isSome then
    Dispatch.editSimulationCall (st.artifacts.simulationCode.getD "") text
  else
    Dispatch.generateAll text

/-- State transition of handleSendMessage, parameterized by the settled
outcomes of whichever AI calls the taken branch awaits. An edit branch
stores the edited artifact in its own slot on success and, through the
surrounding try/catch, leaves the state unchanged on rejection; the
generate branch forces the learning view, resets the sub tab to
explanation and applies the fan-out settlement. -/
def handleSendMessage (st : LearnState) (text : String)
    (editVisualResult editSimulationResult : Settled String)
    (exp vis sim : Settled String) (ver : Settled VerificationData) : LearnState :=
  if st.activeView = MainView.learning ∧ st.activeSubTab = AppTab.visuals
      ∧ st.artifacts.visualBase64.isSome then
    match editVisualResult with
    | Settled.fulfilled v => { st with artifacts := { st.artifacts with visualBase64 := some v } }
    | Settled.rejected => st
  else if st.activeView = MainView.learning ∧ st.activeSubTab = AppTab.simulation
      ∧ st.artifacts.simulationCode.isSome then
    match editSimulationResult with
    | Settled.fulfilled v => { st with artifacts := { st.artifacts with simulationCode := some v } }
    | Settled.rejected => st
  else
    { st with
        activeView := MainView.learning
        activeSubTab := AppTab.explanation
        artifacts := applyFanOut st.artifacts exp vis sim ver }

/-! ### Session list maintenance (createNewSession / deleteSession) -/

/-- Record `ChatMessage` in types.ts. -/
structure ChatMessage where
  id : String
  role : String
  text : String
  timestamp : Int
  deriving DecidableEq, Repr

/-- Record `ChatSession` in types.ts. -/
structure ChatSession where
  id : String
  title : String
  messages : List ChatMessage
  createdAt : Int
  deriving DecidableEq, Repr

/-- The session-related App component state. -/
structure SessionAppState where
  sessions : List ChatSession
  currentSessionId : String
  explanation : String
  visualBase64 : Option String
  simulationCode : Option String
  verificationData : Option VerificationData
  deriving DecidableEq, Repr

/-- resetOutputs: clears the four artifact slots. -/
def resetOutputs (st : SessionAppState) : SessionAppState :=
  { st with
      explanation := ""
      visualBase64 := none
      simulationCode := none
      verificationData := none }

/-- createNewSession: prepends a fresh empty session stamped with the
current time, selects it and clears the outputs. -/
def createNewSession (st : SessionAppState) (now : Int) : SessionAppState :=
  let newSession : ChatSession :=
    { id := toString now, title := "New Chat", messages := [], createdAt := now }
  resetOutputs
    { st with sessions := newSession :: st.sessions, currentSessionId := newSession.id }

/-- deleteSession: removes every session whose id matches; if the
current session was removed and others remain, selects the first and
clears outputs; if the list became empty, falls back to
createNewSession. -/
def deleteSession (st : SessionAppState) (id : String) (now : Int) : SessionAppState :=
  let newSessions := st.sessions.filter fun s => s.id != id
  if st.currentSessionId = id ∧ 0 < newSessions.length then
    resetOutputs
      { st with
          sessions := newSessions
          currentSessionId := (newSessions.headD ⟨"", "", [], 0⟩).id }
  else if newSessions.length = 0 then
    createNewSession { st with sessions := newSessions } now
  else
    { st with sessions := newSessions }

/-! ### Quiz completion (handleStartQuiz / finishQuiz in TestSection) -/

/-- The configuration emitted by the AdaptiveQuizSetup start button:
selected topics, the difficulty and the chosen question count. -/
structure QuizSetupConfig where
  topics : List String
  difficulty : String
  count : Int
  deriving DecidableEq, Repr

/-- The question-count options offered by AdaptiveQuizSetup. -/
def questionCountOptions : List Int := [5, 10, 20]

/-- The TestSection state feeding finishQuiz. -/
structure TestSectionState where
  quizData : Option QuizData
  quizDifficulty : String
  correctCount : Int
  currentQuestionIndex : Nat
  deriving DecidableEq, Repr

/-- handleStartQuiz: stores the configured difficulty, installs the
generated quiz and resets index and score; the configured count is
forwarded to generateQuiz but never stored. -/
def handleStartQuiz (st : TestSectionState) (config : QuizSetupConfig)
    (generated : QuizData) : TestSectionState :=
  { st with
      quizDifficulty := config.difficulty
      quizData := some generated
      currentQuestionIndex := 0
      correctCount := 0 }

/-- finishQuiz: when a quiz is loaded, emits the QuizResult with the
accumulated score and the hardcoded totalQuestions of 5. -/
def finishQuiz (st : TestSectionState) (now : Int) : Option QuizResult :=
  match st.quizData with
  | some qd =>
      some { id := toString now, topic := qd.topic, difficulty := st.quizDifficulty,
             score := st.correctCount, totalQuestions := 5, timestamp := now }
  | none => none

/-! ### Theorems for grading claims -/

/-- C6: a fill-blank answer is graded correct iff the typed text equals
the questions correctAnswer after lowercasing and trimming both, and
the concrete input " paris " grades correct against "Paris". -/
theorem fillBlank_graded_by_trimmed_lowercase_equality
    (quizData : QuizData) (i : Nat) (selectedOption textInput : String)
    (matchSelections : String → Option String) (q : FillBlankQuestion)
    (h : quizData.fillBlank[i]? = some q) :
    (checkAnswer quizData QuestionType.fillBlank i selectedOption textInput matchSelections = true
      ↔ jsTrim (jsToLowerCase textInput) = jsTrim (jsToLowerCase q.correctAnswer))
    ∧ gradeFillBlank " paris " "Paris" = true := by
  constructor
  · simp [checkAnswer, h, gradeFillBlank]
  · decide

/-- C6 witness: the theorem instantiated at a concrete quiz. -/
theorem fillBlank_graded_witness :
    (checkAnswer ⟨"T", [], [⟨"q1", "Capital?", "___ is the capital.", "Paris"⟩], [], []⟩
        QuestionType.fillBlank 0 "" " paris " (fun _ => none) = true
      ↔ jsTrim (jsToLowerCase " paris ") = jsTrim (jsToLowerCase "Paris"))
    ∧ gradeFillBlank " paris " "Paris" = true :=
  fillBlank_graded_by_trimmed_lowercase_equality
    ⟨"T", [], [⟨"q1", "Capital?", "___ is the capital.", "Paris"⟩], [], []⟩
    0 "" " paris " (fun _ => none) ⟨"q1", "Capital?", "___ is the capital.", "Paris"⟩ rfl

/-- C7: a match question is graded correct iff every pair has a recorded
selection equal to its right-hand value; the concrete quiz with pairs
(A,1),(B,2) and selections A↦1, B↦3 grades incorrect. -/
theorem match_requires_every_pair_correct
    (quizData : QuizData) (i : Nat) (selectedOption textInput : String)
    (matchSelections : String → Option String) (q : MatchQuestion)
    (h : quizData.matchQ[i]? = some q) :
    (checkAnswer quizData QuestionType.matchQ i selectedOption textInput matchSelections = true
      ↔ ∀ p ∈ q.pairs, matchSelections p.left = some p.right)
    ∧ gradeMatch [⟨"A", "1"⟩, ⟨"B", "2"⟩]
        (fun l => if l = "A" then some "1" else if l = "B" then some "3" else none) = false := by
  constructor
  · simp [checkAnswer, h, gradeMatch]
  · decide

/-- C7 witness: the theorem instantiated at a concrete quiz. -/
theorem match_requires_witness :
    (checkAnswer ⟨"T", [], [], [⟨"m1", "Match", [⟨"A", "1"⟩, ⟨"B", "2"⟩]⟩], []⟩
        QuestionType.matchQ 0 "" ""
        (fun l => if l = "A" then some "1" else if l = "B" then some "3" else none) = true
      ↔ ∀ p ∈ [MatchPair.mk "A" "1", MatchPair.mk "B" "2"],
          (fun l => if l = "A" then some "1" else if l = "B" then some "3" else none) p.left
            = some p.right)
    ∧ gradeMatch [⟨"A", "1"⟩, ⟨"B", "2"⟩]
        (fun l => if l = "A" then some "1" else if l = "B" then some "3" else none) = false :=
  match_requires_every_pair_correct
    ⟨"T", [], [], [⟨"m1", "Match", [⟨"A", "1"⟩, ⟨"B", "2"⟩]⟩], []⟩ 0 "" ""
    (fun l => if l = "A" then some "1" else if l = "B" then some "3" else none)
    ⟨"m1", "Match", [⟨"A", "1"⟩, ⟨"B", "2"⟩]⟩ rfl

/-- C8: the short-answer branch grades every response correct, for every
quiz, index and input; the sampleAnswer is never consulted. -/
theorem shortAnswer_always_graded_correct
    (quizData : QuizData) (i : Nat) (selectedOption textInput : String)
    (matchSelections : String → Option String) :
    checkAnswer quizData QuestionType.answer i selectedOption textInput matchSelections = true :=
  rfl

/-! ### Theorems for metrics claims -/

/-- C4: on an empty mistake list and empty history the derivation
returns exactly the fixed baseline ten-dimension vector. -/
theorem baseline_metrics_vector :
    (deriveMetrics [] []).map (fun m => (m.label, m.score)) =
      [("Direct Recall", 3), ("Conceptual Understanding", 3), ("Procedural Mastery", 3),
       ("Application", 2), ("Creative Thinking", 3), ("Critical Thinking", 2),
       ("Synthesis", 2), ("Time Efficiency", 4), ("Error Correction", 3),
       ("Depth of Explanation", 4)] := by
  norm_num [deriveMetrics, aggregateAccuracy, accuracyBucket, hardPassCount,
    conceptErrorCount, calcErrorCount, detailedNoteCount]

/-- C3: for a non-empty history the Direct Recall score is the accuracy
bucket of the aggregate accuracy, and so is Procedural Mastery as long
as at most two Calculation mistakes exist; for the single result with
score 9 of 10 the aggregate accuracy is exactly 9/10, which misses the
strict `>0.9` bucket, so both scores are 4. -/
theorem recall_procedural_follow_accuracy_buckets
    (mistakes : List MistakeItem) (quizHistory : List QuizResult)
    (h : quizHistory ≠ []) :
    metricScore mistakes quizHistory 0 = accuracyBucket (aggregateAccuracy quizHistory)
    ∧ (calcErrorCount mistakes ≤ 2 →
        metricScore mistakes quizHistory 2 = accuracyBucket (aggregateAccuracy quizHistory))
    ∧ aggregateAccuracy [⟨"1", "T", "Medium", 9, 10, 0⟩] = 9/10
    ∧ metricScore [] [⟨"1", "T", "Medium", 9, 10, 0⟩] 0 = 4
    ∧ metricScore [] [⟨"1", "T", "Medium", 9, 10, 0⟩] 2 = 4 := by
  have hlen : 0 < quizHistory.length := List.length_pos.mpr h
  refine ⟨?_, ?_, ?_, ?_, ?_⟩
  · simp [metricScore, deriveMetrics, hlen]
  · intro hc
    have hc2 : ¬ 2 < calcErrorCount mistakes := Nat.not_lt.mpr hc
    simp [metricScore, deriveMetrics, hlen, hc2]
  · norm_num [aggregateAccuracy]
  · norm_num [metricScore, deriveMetrics, aggregateAccuracy, accuracyBucket,
      hardPassCount, conceptErrorCount, calcErrorCount, detailedNoteCount]
  · norm_num [metricScore, deriveMetrics, aggregateAccuracy, accuracyBucket,
      hardPassCount, conceptErrorCount, calcErrorCount, detailedNoteCount]

/-- C3 witness: the theorem instantiated at the boundary history. -/
theorem recall_procedural_witness :
    metricScore [] [⟨"1", "T", "Medium", 9, 10, 0⟩] 0 =
      accuracyBucket (aggregateAccuracy [⟨"1", "T", "Medium", 9, 10, 0⟩])
    ∧ metricScore [] [⟨"1", "T", "Medium", 9, 10, 0⟩] 0 = 4 := by
  have h := recall_procedural_follow_accuracy_buckets []
    [⟨"1", "T", "Medium", 9, 10, 0⟩] (by simp)
  exact ⟨h.1, h.2.2.2.1⟩

/-- C5 counterexample: two Hard results at accuracy 4/5 give two hard
passes, yet Application is not min(5, 2 + 2·2) = 5 and Critical
Thinking is not min(5, 2 + 2) = 4, because the +2/+1 adjustment is
applied once when any hard pass exists, not once per pass. -/
theorem hard_pass_bonus_not_cumulative :
    hardPassCount [⟨"1", "T", "Hard", 4, 5, 0⟩, ⟨"2", "T", "Hard", 4, 5, 10⟩] = 2
    ∧ metricScore [] [⟨"1", "T", "Hard", 4, 5, 0⟩, ⟨"2", "T", "Hard", 4, 5, 10⟩] 3 ≠
        min 5 (2 + 2 * 2)
    ∧ metricScore [] [⟨"1", "T", "Hard", 4, 5, 0⟩, ⟨"2", "T", "Hard", 4, 5, 10⟩] 5 ≠
        min 5 (2 + 2) := by
  refine ⟨?_, ?_, ?_⟩ <;>
    norm_num [metricScore, deriveMetrics, aggregateAccuracy, accuracyBucket,
      hardPassCount, conceptErrorCount, calcErrorCount, detailedNoteCount]

/-- C5 amended: the hard-pass adjustment is a one-shot bonus: whenever
at least one result has difficulty Hard with per-result accuracy above
0.6, Application is 4 = min(5, 2+2) and Critical Thinking is
3 = min(5, 2+1), independent of how many such results exist; with no
hard pass both keep their baselines 2. -/
theorem hard_pass_bonus_applied_once
    (mistakes : List MistakeItem) (quizHistory : List QuizResult) :
    metricScore mistakes quizHistory 3 = (if 0 < hardPassCount quizHistory then 4 else 2)
    ∧ metricScore mistakes quizHistory 5 = (if 0 < hardPassCount quizHistory then 3 else 2) := by
  have hle : hardPassCount quizHistory ≤ quizHistory.length := by
    simpa [hardPassCount] using List.length_filter_le _ quizHistory
  by_cases hp : 0 < hardPassCount quizHistory
  · have hlen : 0 < quizHistory.length := lt_of_lt_of_le hp hle
    constructor <;> simp [metricScore, deriveMetrics, hlen, hp]
  · constructor <;> simp [metricScore, deriveMetrics, hp]

/-! ### Theorems for orchestrator claims -/

/-- C1: the fan-out settles each of the four calls independently: every
slot final value is a function of that slot outcome alone (fulfilled
stores the value, rejected keeps the prior slot), so for any
combination of outcomes a rejection never blocks a sibling update; in
particular, visual rejected with explanation and simulation fulfilled
updates exactly the explanation and simulation slots. -/
theorem fanout_settles_each_slot_independently
    (st : Artifacts) (exp vis sim : Settled String) (ver : Settled VerificationData) :
    ((applyFanOut st exp vis sim ver).explanation =
        (match exp with | Settled.fulfilled v => v | Settled.rejected => st.explanation))
    ∧ ((applyFanOut st exp vis sim ver).visualBase64 =
        (match vis with | Settled.fulfilled v => some v | Settled.rejected => st.visualBase64))
    ∧ ((applyFanOut st exp vis sim ver).simulationCode =
        (match sim with | Settled.fulfilled v => some v | Settled.rejected => st.simulationCode))
    ∧ ((applyFanOut st exp vis sim ver).verificationData =
        (match ver with | Settled.fulfilled v => some v | Settled.rejected => st.verificationData))
    ∧ (∀ e s : String,
        applyFanOut st (Settled.fulfilled e) Settled.rejected (Settled.fulfilled s)
            Settled.rejected =
          { st with explanation := e, simulationCode := some s }) := by
  refine ⟨?_, ?_, ?_, ?_, fun e s => rfl⟩ <;>
    cases exp <;> cases vis <;> cases sim <;> cases ver <;> rfl

/-- C2: with the visual tab active over an existing visual artifact the
submission dispatches editVisual on that artifact and the transition
touches only the visual slot (likewise for simulation); with the active
tab lacking an artifact of its type the submission dispatches the full
four-way generation. -/
theorem edit_branch_replaces_only_own_slot
    (st : LearnState) (text : String)
    (editVisualResult editSimulationResult : Settled String)
    (exp vis sim : Settled String) (ver : Settled VerificationData) :
    (∀ cur, st.activeView = MainView.learning → st.activeSubTab = AppTab.visuals →
      st.artifacts.visualBase64 = some cur →
      classifyMessage st text = Dispatch.editVisualCall cur text
      ∧ (handleSendMessage st text editVisualResult editSimulationResult exp vis sim
          ver).artifacts.explanation = st.artifacts.explanation
      ∧ (handleSendMessage st text editVisualResult editSimulationResult exp vis sim
          ver).artifacts.simulationCode = st.artifacts.simulationCode
      ∧ (handleSendMessage st text editVisualResult editSimulationResult exp vis sim
          ver).artifacts.verificationData = st.artifacts.verificationData
      ∧ (handleSendMessage st text editVisualResult editSimulationResult exp vis sim
          ver).artifacts.visualBase64 =
          (match editVisualResult with
            | Settled.fulfilled v => some v | Settled.rejected => some cur))
    ∧ (∀ cur, st.activeView = MainView.learning → st.activeSubTab = AppTab.simulation →
      st.artifacts.simulationCode = some cur →
      classifyMessage st text = Dispatch.editSimulationCall cur text
      ∧ (handleSendMessage st text editVisualResult editSimulationResult exp vis sim
          ver).artifacts.explanation = st.artifacts.explanation
      ∧ (handleSendMessage st text editVisualResult editSimulationResult exp vis sim
          ver).artifacts.visualBase64 = st.artifacts.visualBase64
      ∧ (handleSendMessage st text editVisualResult editSimulationResult exp vis sim
          ver).artifacts.verificationData = st.artifacts.verificationData
      ∧ (handleSendMessage st text editVisualResult editSimulationResult exp vis sim
          ver).artifacts.simulationCode =
          (match editSimulationResult with
            | Settled.fulfilled v => some v | Settled.rejected => some cur))
    ∧ (st.activeSubTab = AppTab.visuals → st.artifacts.visualBase64 = none →
      classifyMessage st text = Dispatch.generateAll text
      ∧ (handleSendMessage st text editVisualResult editSimulationResult exp vis sim
          ver).artifacts = applyFanOut st.artifacts exp vis sim ver)
    ∧ (st.activeSubTab = AppTab.simulation → st.artifacts.simulationCode = none →
      classifyMessage st text = Dispatch.generateAll text
      ∧ (handleSendMessage st text editVisualResult editSimulationResult exp vis sim
          ver).artifacts = applyFanOut st.artifacts exp vis sim ver) := by
  refine ⟨?_, ?_, ?_, ?_⟩
  · intro cur hview htab hslot
    have hc : st.activeView = MainView.learning ∧ st.activeSubTab = AppTab.visuals
        ∧ st.artifacts.visualBase64.isSome := ⟨hview, htab, by simp [hslot]⟩
    refine ⟨by simp [classifyMessage, hc, hslot], ?_, ?_, ?_, ?_⟩ <;>
      cases editVisualResult <;> simp [handleSendMessage, hc, hslot]
  · intro cur hview htab hslot
    have hnotvis : ¬ (st.activeView = MainView.learning ∧ st.activeSubTab = AppTab.visuals
        ∧ st.artifacts.visualBase64.isSome) := by
      rintro ⟨-, h2, -⟩
      rw [htab] at h2
      exact absurd h2 (by simp)
    have hc : st.activeView = MainView.learning ∧ st.activeSubTab = AppTab.simulation
        ∧ st.artifacts.simulationCode.isSome := ⟨hview, htab, by simp [hslot]⟩
    refine ⟨by simp [classifyMessage, hnotvis, hc, hslot], ?_, ?_, ?_, ?_⟩ <;>
      cases editSimulationResult <;> simp [handleSendMessage, hnotvis, hc, hslot]
  · intro htab hslot
    have hnotvis : ¬ (st.activeView = MainView.learning ∧ st.activeSubTab = AppTab.visuals
        ∧ st.artifacts.visualBase64.isSome) := by
      rintro ⟨-, -, h3⟩
      rw [hslot] at h3
      exact absurd h3 (by simp)
    have hnotsim : ¬ (st.activeView = MainView.learning ∧ st.activeSubTab = AppTab.simulation
        ∧ st.artifacts.simulationCode.isSome) := by
      rintro ⟨-, h2, -⟩
      rw [htab] at h2
      exact absurd h2 (by simp)
    exact ⟨by simp [classifyMessage, hnotvis, hnotsim],
      by simp [handleSendMessage, hnotvis, hnotsim]⟩
  · intro htab hslot
    have hnotvis : ¬ (st.activeView = MainView.learning ∧ st.activeSubTab = AppTab.visuals
        ∧ st.artifacts.visualBase64.isSome) := by
      rintro ⟨-, h2, -⟩
      rw [htab] at h2
      exact absurd h2 (by simp)
    have hnotsim : ¬ (st.activeView = MainView.learning ∧ st.activeSubTab = AppTab.simulation
        ∧ st.artifacts.simulationCode.isSome) := by
      rintro ⟨-, -, h3⟩
      rw [hslot] at h3
      exact absurd h3 (by simp)
    exact ⟨by simp [classifyMessage, hnotvis, hnotsim],
      by simp [handleSendMessage, hnotvis, hnotsim]⟩

/-- C2 witness: the theorem instantiated at a concrete state whose
visual tab holds an artifact, with a fulfilled edit call. -/
theorem edit_branch_witness :
    classifyMessage ⟨MainView.learning, AppTab.visuals, ⟨"e", some "img", none, none⟩⟩
        "make it red" = Dispatch.editVisualCall "img" "make it red"
    ∧ (handleSendMessage ⟨MainView.learning, AppTab.visuals, ⟨"e", some "img", none, none⟩⟩
        "make it red" (Settled.fulfilled "img2") Settled.rejected
        Settled.rejected Settled.rejected Settled.rejected
        Settled.rejected).artifacts.explanation = "e" := by
  have h := (edit_branch_replaces_only_own_slot
    ⟨MainView.learning, AppTab.visuals, ⟨"e", some "img", none, none⟩⟩
    "make it red" (Settled.fulfilled "img2") Settled.rejected
    Settled.rejected Settled.rejected Settled.rejected Settled.rejected).1
    "img" rfl rfl rfl
  exact ⟨h.1, h.2.1⟩

/-! ### Theorems for session and quiz-completion claims -/

/-- C9: a deleteSession never leaves the session list empty, and
deleting the last remaining session produces exactly one automatically
created session with no messages. -/
theorem delete_session_never_leaves_zero_sessions
    (st : SessionAppState) (id : String) (now : Int) :
    (deleteSession st id now).sessions ≠ []
    ∧ (∀ s, st.sessions = [s] → s.id = id →
        (deleteSession st id now).sessions.length = 1
        ∧ ∀ t ∈ (deleteSession st id now).sessions, t.messages = []) := by
  constructor
  · simp only [deleteSession]
    split
    · rename_i hcond
      simp only [resetOutputs]
      exact List.ne_nil_of_length_pos hcond.2
    · split
      · simp [createNewSession, resetOutputs]
      · rename_i hne
        intro hnil
        exact hne (by simpa using congrArg List.length hnil)
  · intro s hs hid
    have hfil : st.sessions.filter (fun t => t.id != id) = [] := by
      simp [hs, hid]
    constructor
    · simp [deleteSession, hfil, createNewSession, resetOutputs]
    · intro t ht
      have hsess : (deleteSession st id now).sessions =
          [⟨toString now, "New Chat", [], now⟩] := by
        simp [deleteSession, hfil, createNewSession, resetOutputs]
      rw [hsess] at ht
      simp at ht
      simp [ht]

/-- C9 witness: the theorem instantiated at a one-session state whose
only session is deleted. -/
theorem delete_session_witness :
    (deleteSession ⟨[⟨"1", "t", [], 0⟩], "1", "", none, none, none⟩ "1" 7).sessions.length = 1 :=
  ((delete_session_never_leaves_zero_sessions
      ⟨[⟨"1", "t", [], 0⟩], "1", "", none, none, none⟩ "1" 7).2
    ⟨"1", "t", [], 0⟩ rfl rfl).1

/-- C10: every QuizResult finishQuiz emits has totalQuestions 5, and a
quiz started from any setup configuration — whatever question count it
chose — finishes with a result whose totalQuestions is 5. -/
theorem quiz_result_total_questions_always_five
    (st : TestSectionState) (now : Int) :
    (∀ r, finishQuiz st now = some r → r.totalQuestions = 5)
    ∧ (∀ (config : QuizSetupConfig) (generated : QuizData) (now2 : Int),
        finishQuiz (handleStartQuiz st config generated) now2 =
          some { id := toString now2, topic := generated.topic,
                 difficulty := config.difficulty, score := 0,
                 totalQuestions := 5, timestamp := now2 }) := by
  constructor
  · intro r hr
    cases hq : st.quizData with
    | some qd =>
        simp [finishQuiz, hq] at hr
        simp [← hr]
    | none => simp [finishQuiz, hq] at hr
  · intro config generated now2
    rfl

/-- C10 witness: the theorem applied to a loaded quiz state and to a
setup configuration choosing 20 questions. -/
theorem quiz_result_total_witness :
    (finishQuiz
        (handleStartQuiz ⟨none, "Medium", 0, 0⟩ ⟨["T"], "Hard", 20⟩ ⟨"T", [], [], [], []⟩) 3)
        = some { id := toString (3 : Int), topic := "T", difficulty := "Hard",
                 score := 0, totalQuestions := 5, timestamp := 3 }
    ∧ (20 : Int) ∈ questionCountOptions := by
  refine ⟨?_, by decide⟩
  exact (quiz_result_total_questions_always_five ⟨none, "Medium", 0, 0⟩ 3).2
    ⟨["T"], "Hard", 20⟩ ⟨"T", [], [], [], []⟩ 3
